import Mathlib

/-!
Shallow embedding of the local-persistence and remote-sync core of the
attendance PWA in src/index.html. The source holds two app variants separated
by a document marker:

* an evidence module (namespace `EvidenceModule` below): composite per-day
  evidence records keyed by `userId_fecha` in the EVIDENCES object store,
  plus a lightweight localStorage index and a Gist sync helper;
* the main app (namespace `App` below): per-event evidence records with
  auto-incremented identities, worker counters, `fetchWithBackoff`,
  `loadDataFromGist` and `saveDataToGist`, `clearAndBulkAdd`, and
  `initialDataLoad`.

IndexedDB object stores with an in-record key path are modelled as Lean lists
of records together with, where auto-increment matters, the next key of the
store key generator. `getAll` order is not relied upon by any claim. JavaScript
numbers that the claims treat as integers (ids, counters, timestamps) are
modelled as `Nat`/`Int`; JSON content strings are modelled by the already
parsed `JVal` value (`JSON.stringify`/`JSON.parse` round-trip collapsed), and
`null`/`undefined` record fields are both modelled as `Option.none`.
-/

/-- JSON values, modelling what `JSON.stringify` serializes. Object fields are
kept in insertion order, as JavaScript does for string keys. -/
inductive JVal where
  | nul : JVal
  | bool (b : Bool) : JVal
  | num (n : Int) : JVal
  | str (s : String) : JVal
  | arr (xs : List JVal) : JVal
  | obj (fields : List (String × JVal)) : JVal
deriving Repr

/-- Top-level keys of a JSON object (empty for non-objects). -/
def jvalKeys : JVal → List String
  | .obj fields => fields.map Prod.fst
  | _ => []

/-- Property access `j[k]` on a JSON object. -/
def jvalLookup (j : JVal) (k : String) : Option JVal :=
  match j with
  | .obj fields => (fields.find? (fun p => p.1 == k)).map Prod.snd
  | _ => none

/-- One HTTP request against the Gist API, as assembled by the sync code:
method, URL, the `description` field of the payload, and the `files` map
(file name to the parsed JSON of its `content` string). -/
structure GistRequest where
  method : String
  url : String
  description : String
  files : List (String × JVal)
deriving Repr

/-- IndexedDB `store.put` on an object store whose key path is the field read
by `idf`: replace every record holding the same key, or append if the key is
absent. -/
def putByKey {α β : Type} [BEq β] (idf : α → β) (l : List α) (r : α) : List α :=
  if l.any (fun x => idf x == idf r) then l.map (fun x => if idf x == idf r then r else x)
  else l ++ [r]

/-- IndexedDB `store.get key` on an object store whose key path is the field
read by `idf`. -/
def getByKey {α β : Type} [BEq β] (idf : α → β) (l : List α) (k : β) : Option α :=
  l.find? (fun x => idf x == k)

namespace EvidenceModule

/-- The value stored in `validatedEntry` / `validatedExit`: the source writes
`ocrResult || true`, i.e. either the OCR payload object `\x7b raw: text \x7d`
or the literal `true`. -/
inductive ValidationMark where
  | yes : ValidationMark
  | ocr (raw : String) : ValidationMark
deriving Repr, DecidableEq

/-- Composite per-day evidence record of the evidence module
(`saveEvidenceForUser`, src/index.html lines 141-181). -/
structure EvidenceRecord where
  id : String
  userId : String
  fecha : String
  entrada : Option String
  salida : Option String
  validatedEntry : Option ValidationMark
  validatedExit : Option ValidationMark
  timestamp : Nat
deriving Repr, DecidableEq

/-- One entry of the lightweight localStorage index `evidencias_index`. -/
structure IndexEntry where
  id : String
  userId : String
  fecha : String
  tipo : String
  createdAt : Nat
deriving Repr, DecidableEq

/-- `idbGet(STORES.EVIDENCES, key)`: lookup by the `id` key path. -/
def idbGet (store : List EvidenceRecord) (key : String) : Option EvidenceRecord :=
  getByKey (fun r => r.id) store key

/-- `idbPut(STORES.EVIDENCES, value)`: insert-or-replace by the `id` key path. -/
def idbPut (store : List EvidenceRecord) (r : EvidenceRecord) : List EvidenceRecord :=
  putByKey (fun r => r.id) store r

/-- `ocrResult || true` for the validation slots: the module passes either
`\x7b raw: ocrText \x7d` (modelled `some raw`) or `null` (modelled `none`). -/
def validationOf (ocrResult : Option String) : ValidationMark :=
  match ocrResult with
  | some raw => .ocr raw
  | none => .yes

/-- Result of one `saveEvidenceForUser` call: the EVIDENCES store after
`idbPut`, the localStorage index after the push, and the returned record. -/
structure SaveResult where
  store : List EvidenceRecord
  index : List IndexEntry
  record : EvidenceRecord
deriving Repr, DecidableEq

/-- `saveEvidenceForUser(userId, dateISO, tipo, dataUrl, ocrResult)`
(src/index.html lines 141-181). The composite id is `userId_dateISO`; an
existing record is loaded and updated in place, otherwise a fresh record with
both slots empty is created; the slot matching `tipo` (the `else` branch of
the source covers every tipo other than "entrada", in particular "salida")
receives the image and a validation mark; the record is written back with
`idbPut` and one entry is pushed onto the localStorage index. `now` stands
for `Date.now()`. -/
def saveEvidenceForUser (store : List EvidenceRecord) (indexList : List IndexEntry)
    (userId dateISO tipo dataUrl : String) (ocrResult : Option String) (now : Nat) :
    SaveResult :=
  let id := userId ++ "_" ++ dateISO
  let record0 : EvidenceRecord :=
    match idbGet store id with
    | some existing => existing
    | none =>
      { id := id, userId := userId, fecha := dateISO, entrada := none, salida := none,
        validatedEntry := none, validatedExit := none, timestamp := now }
  let record :=
    if tipo = "entrada" then
      { record0 with entrada := some dataUrl, validatedEntry := some (validationOf ocrResult) }
    else
      { record0 with salida := some dataUrl, validatedExit := some (validationOf ocrResult) }
  { store := idbPut store record,
    index := indexList ++ [{ id := id, userId := userId, fecha := dateISO, tipo := tipo,
                             createdAt := now }],
    record := record }

/-- `getLocalIndex()` parses the localStorage key back into the entry list. -/
def getLocalIndex (localIndex : List IndexEntry) : List IndexEntry :=
  localIndex

end EvidenceModule

namespace App

/-- Worker record of the main app (`INITIAL_USERS` shape, src/index.html
lines 395-399). `totalAssists` may be absent on a record
(`userToUpdate.totalAssists || 0` guards for that), hence `Option`. -/
structure User where
  id : Nat
  name : String
  dni : String
  totalAssists : Option Int
  lastAssistance : Option String
deriving Repr, DecidableEq

/-- Per-event evidence record of the main app (`handleAttendanceSubmit`,
src/index.html lines 901-909). `id` is `none` until the EVIDENCES store
key generator assigns one. The JavaScript `amount` is a float carried
as an uninterpreted value; no claim computes with it, so it is modelled as `Int`. -/
structure EventEvidence where
  id : Option Nat
  userId : Nat
  date : String
  amount : Int
  notes : String
  image : Option String
  timestamp : String
deriving Repr, DecidableEq

/-- State of the auto-increment EVIDENCES object store: the records plus the
next key of the key generator (IndexedDB generators start at 1 and are not
reset by `clear`). -/
structure EvState where
  records : List EventEvidence
  nextKey : Nat
deriving Repr, DecidableEq

/-- Parsed content of the `asistencias_pro_data.json` file of the remote
Gist, as consumed by `initialDataLoad` (`remoteData.users`,
`remoteData.evidences`). -/
structure RemoteData where
  users : List User
  evidences : List EventEvidence
deriving Repr, DecidableEq

/-- A resolved `fetch` response: HTTP status plus, for the pull path, the
`files` map of the Gist body (file name to parsed content). -/
structure Response where
  status : Nat
  files : List (String × RemoteData)
deriving Repr, DecidableEq

/-- `response.ok`: status in the inclusive range 200-299. -/
def Response.ok (r : Response) : Bool :=
  200 ≤ r.status && r.status ≤ 299

/-- The errors a sync promise can reject with:
`gist404` is the Error thrown for `response.status === 404`;
`network` is a rejected `fetch`;
`configMissing` is the Error thrown by `loadDataFromGist` when the Gist id or
token is empty;
`fileMissing` is the Error thrown when the named file is absent from the Gist;
`undefResponse` is the TypeError raised by reading `.json()` off the
`undefined` that `fetchWithBackoff` resolves with after exhausting retries on
non-404 failure statuses. -/
inductive JsError where
  | gist404 : JsError
  | network : JsError
  | configMissing : JsError
  | fileMissing : JsError
  | undefResponse : JsError
deriving Repr, DecidableEq

/-- How a `fetchWithBackoff` promise settles: resolved with a response,
rejected with an error, or resolved with `undefined` (the loop exhausted on
non-404 failure statuses reaches the end of the function body). -/
inductive BackoffOutcome where
  | success (resp : Response) : BackoffOutcome
  | error (e : JsError) : BackoffOutcome
  | undef : BackoffOutcome
deriving Repr, DecidableEq

/-- Observable trace of one `fetchWithBackoff` call: how it settled, how many
`fetch` attempts were made, and the `setTimeout` delays (milliseconds) awaited
between/after attempts, in order. -/
structure BackoffRun where
  outcome : BackoffOutcome
  attempts : Nat
  delaysMs : List Nat
deriving Repr, DecidableEq

/-- Loop body of `fetchWithBackoff` (src/index.html lines 523-544), indexed by
the current loop counter `i` and the remaining iterations as fuel. Per
iteration: a resolved OK response returns immediately; a 404 response throws
an Error, which the `catch` of the same iteration swallows unless
`i === retries - 1`; any other failure status only logs; a rejected fetch is
handled like the thrown 404. Every path that neither returns nor rethrows
awaits `Math.pow(2, i) * 1000` milliseconds and continues; when the loop ends
without returning, the promise resolves with `undefined`. -/
def fetchWithBackoffAux (results : Nat → Except JsError Response) (i : Nat) :
    Nat → BackoffRun
  | 0 => { outcome := .undef, attempts := 0, delaysMs := [] }
  | fuel + 1 =>
    match results i with
    | .ok resp =>
      if resp.ok then
        { outcome := .success resp, attempts := 1, delaysMs := [] }
      else if resp.status = 404 then
        if fuel = 0 then
          { outcome := .error .gist404, attempts := 1, delaysMs := [] }
        else
          let rest := fetchWithBackoffAux results (i + 1) fuel
          { outcome := rest.outcome, attempts := rest.attempts + 1,
            delaysMs := 2 ^ i * 1000 :: rest.delaysMs }
      else
        let rest := fetchWithBackoffAux results (i + 1) fuel
        { outcome := rest.outcome, attempts := rest.attempts + 1,
          delaysMs := 2 ^ i * 1000 :: rest.delaysMs }
    | .error e =>
      if fuel = 0 then
        { outcome := .error e, attempts := 1, delaysMs := [] }
      else
        let rest := fetchWithBackoffAux results (i + 1) fuel
        { outcome := rest.outcome, attempts := rest.attempts + 1,
          delaysMs := 2 ^ i * 1000 :: rest.delaysMs }

/-- `fetchWithBackoff(url, options, retries = 5)`: `results n` is what the
n-th `fetch` call would settle to. -/
def fetchWithBackoff (results : Nat → Except JsError Response)
    (retries : Nat := 5) : BackoffRun :=
  fetchWithBackoffAux results 0 retries

/-- The Sync Configuration value stored in the CONFIG store under
`gist_config`. -/
structure GistConfig where
  gistId : String
  token : String
deriving Repr, DecidableEq

/-- A record of the CONFIG object store: a key plus the configuration value,
as `updateGistConfig` writes it. -/
structure GistConfigRecord where
  key : String
  value : GistConfig
deriving Repr, DecidableEq

/-- The IDBRequest object that `store.get` returns synchronously. The lookup
result arrives later in its `result` slot; the object has no `value`
property. An IDBRequest is not a thenable, so `await` on it yields the
request object itself, not the result. -/
structure IDBRequest where
  result : Option GistConfigRecord
deriving Repr, DecidableEq

/-- `store.get(CONFIG_KEY)` on the CONFIG store: builds the request whose
eventual result is the keyed record, if present. -/
def configStoreGet (configStore : List GistConfigRecord) (key : String) : IDBRequest :=
  { result := configStore.find? (fun r => r.key == key) }

/-- Reading the `value` property off an awaited IDBRequest: the request
object carries no such property, so the access yields `undefined`. -/
def IDBRequest.valueProp (_req : IDBRequest) : Option GistConfig :=
  none

/-- `getGistConfig()` (src/index.html lines 550-563). The source does
`const config = await db.transaction(...).objectStore(...).get(CONFIG_KEY)`:
`get` returns an IDBRequest, and `await` yields that request object itself,
so `config` is always truthy — the `if (!config)` default branch after the
await is unreachable — and `return config.value` reads a property the
request does not have. The non-throwing path therefore resolves `undefined`
(`none` here) for every stored configuration; only the catch path (the
transaction itself failing to build, `txThrows`) returns the empty default. -/
def getGistConfig (configStore : List GistConfigRecord) (txThrows : Bool) :
    Option GistConfig :=
  if txThrows then some { gistId := "", token := "" }
  else
    let config := configStoreGet configStore "gist_config"
    config.valueProp

/-- `loadDataFromGist(gistId, token)` (src/index.html lines 581-607): throws
when either credential is empty (JavaScript string falsiness), otherwise runs
`fetchWithBackoff` with 5 retries, reads the `asistencias_pro_data.json` file
off the response and returns its parsed content. -/
def loadDataFromGist (gistId token : String)
    (results : Nat → Except JsError Response) : Except JsError RemoteData :=
  if gistId = "" ∨ token = "" then .error .configMissing
  else
    match (fetchWithBackoff results 5).outcome with
    | .error e => .error e
    | .undef => .error .undefResponse
    | .success resp =>
      match (resp.files.find? (fun p => p.1 == "asistencias_pro_data.json")).map Prod.snd with
      | none => .error .fileMissing
      | some content => .ok content

end App

/-- JSON serialization of an optional string field (`null` for `none`). -/
def optStrJson : Option String → JVal
  | none => .nul
  | some s => .str s

namespace App

/-- `JSON.stringify` image of a worker record. -/
def userJson (u : User) : JVal :=
  .obj [("id", .num u.id), ("name", .str u.name), ("dni", .str u.dni),
        ("totalAssists", match u.totalAssists with | none => .nul | some n => .num n),
        ("lastAssistance", optStrJson u.lastAssistance)]

/-- `JSON.stringify` image of a per-event evidence record. -/
def eventEvidenceJson (e : EventEvidence) : JVal :=
  .obj [("id", match e.id with | none => .nul | some k => .num k),
        ("userId", .num e.userId), ("date", .str e.date), ("amount", .num e.amount),
        ("notes", .str e.notes), ("image", optStrJson e.image),
        ("timestamp", .str e.timestamp)]

/-- The `dataToSave` object that `saveDataToGist` serializes into the Gist
file (src/index.html lines 625-629): the two `getAll` snapshots plus a
`lastSync` ISO timestamp. -/
def dataToSaveJson (users : List User) (evidences : List EventEvidence)
    (lastSync : String) : JVal :=
  .obj [("users", .arr (users.map userJson)),
        ("evidences", .arr (evidences.map eventEvidenceJson)),
        ("lastSync", .str lastSync)]

/-- Modelled from the spec: the content the spec claims a push serializes —
the two collections and nothing else. Present only to compare against
`dataToSaveJson`, which is what the source actually builds. -/
def specPushContentJson (users : List User) (evidences : List EventEvidence) : JVal :=
  .obj [("users", .arr (users.map userJson)),
        ("evidences", .arr (evidences.map eventEvidenceJson))]

/-- The PATCH request `saveDataToGist` submits (src/index.html lines
631-650): one named file whose content is the serialized `dataToSave`. -/
def saveDataRequest (gistId : String) (users : List User)
    (evidences : List EventEvidence) (lastSync : String) : GistRequest :=
  { method := "PATCH",
    url := "https://api.github.com/gists/" ++ gistId,
    description := "Datos de Asistencias PRO sincronizados automáticamente.",
    files := [("asistencias_pro_data.json", dataToSaveJson users evidences lastSync)] }

/-- What the caller of `saveDataToGist` observes: the early return when the
configuration is incomplete, or the success/error branch of its try/catch
(which drives the sync-status indicator). -/
inductive PushResult where
  | skippedNoConfig : PushResult
  | reportedSuccess : PushResult
  | reportedError : PushResult
deriving Repr, DecidableEq

/-- `saveDataToGist(gistId, token)` (src/index.html lines 615-665): with an
empty id or token it only warns and resolves (no request); otherwise it
builds the PATCH request from the `getAll` snapshots and awaits
`fetchWithBackoff`; only a rejected promise reaches the `catch` (error
status), every resolved value — including `undefined` — reaches the success
branch. Returns the request sent (if any) and the reported result. -/
def saveDataToGist (gistId token : String) (users : List User)
    (evidences : List EventEvidence) (nowIso : String)
    (results : Nat → Except JsError Response) : Option GistRequest × PushResult :=
  if gistId = "" ∨ token = "" then (none, .skippedNoConfig)
  else
    let req := saveDataRequest gistId users evidences nowIso
    match (fetchWithBackoff results 5).outcome with
    | .error _ => (some req, .reportedError)
    | _ => (some req, .reportedSuccess)

end App

namespace EvidenceModule

/-- `GIST_FILE_NAME` of the evidence module (src/index.html line 26). -/
def GIST_FILE_NAME : String := "gestion_asistencias_pro_full.json"

/-- `JSON.stringify` image of a validation slot: `null`, `true`, or the OCR
payload object. -/
def validationJson : Option ValidationMark → JVal
  | none => .nul
  | some .yes => .bool true
  | some (.ocr raw) => .obj [("raw", .str raw)]

/-- `JSON.stringify` image of a composite evidence record. -/
def evidenceRecordJson (r : EvidenceRecord) : JVal :=
  .obj [("id", .str r.id), ("userId", .str r.userId), ("fecha", .str r.fecha),
        ("entrada", optStrJson r.entrada), ("salida", optStrJson r.salida),
        ("validatedEntry", validationJson r.validatedEntry),
        ("validatedExit", validationJson r.validatedExit),
        ("timestamp", .num r.timestamp)]

/-- Result of `syncToGist`: `undefined` (not configured), `true`, or `false`. -/
inductive SyncResult where
  | skipped : SyncResult
  | success : SyncResult
  | failed : SyncResult
deriving Repr, DecidableEq

/-- `syncToGist()` (src/index.html lines 236-271). The module only reads its
users store, never writes it, so its user entries are serialized as
uninterpreted `JVal`s. A single plain `fetch` (no backoff) is awaited; a non-OK status
throws into the `catch`. Returns the PATCH request sent (if any) and the
result. `fetchStatus` is the settled status of that one fetch. -/
def syncToGist (cfgId cfgToken : String) (users : List JVal)
    (evidences : List EvidenceRecord) (nowIso : String)
    (fetchStatus : Except Unit Nat) : Option GistRequest × SyncResult :=
  if cfgId = "" ∨ cfgToken = "" then (none, .skipped)
  else
    let req : GistRequest :=
      { method := "PATCH",
        url := "https://api.github.com/gists/" ++ cfgId,
        description := "Backup Asistencias PRO - " ++ nowIso,
        files := [(GIST_FILE_NAME,
          JVal.obj [("users", .arr users),
                    ("evidences", .arr (evidences.map evidenceRecordJson))])] }
    match fetchStatus with
    | .error _ => (some req, .failed)
    | .ok status => if 200 ≤ status ∧ status ≤ 299 then (some req, .success)
                    else (some req, .failed)

end EvidenceModule

namespace App

/-- Operations issued inside the single readwrite transaction of
`clearAndBulkAdd` on the EVIDENCES store. -/
inductive TxOp where
  | clear : TxOp
  | add (item : EventEvidence) : TxOp
deriving Repr, DecidableEq

/-- `if (storeName === STORES.EVIDENCES && !item.id) delete item.id`
(src/index.html lines 506-508): a falsy id (absent or 0) is deleted so that
auto-increment assigns the key. -/
def stripFalsyId (item : EventEvidence) : EventEvidence :=
  match item.id with
  | none => item
  | some k => if k = 0 then { item with id := none } else item

/-- JavaScript falsiness of the optional numeric id. -/
def jsFalsyId (id : Option Nat) : Prop :=
  id = none ∨ id = some 0

instance (id : Option Nat) : Decidable (jsFalsyId id) := by
  unfold jsFalsyId; infer_instance

/-- IndexedDB `store.add` on the auto-increment EVIDENCES store: without an
id the generator assigns the next key; with an explicit id the add fails
(ConstraintError, aborting the transaction) if the key exists, and otherwise
inserts and bumps the generator past the explicit key. -/
def addEv (s : EvState) (item : EventEvidence) : Except Unit EvState :=
  match item.id with
  | none =>
    .ok { records := s.records ++ [{ item with id := some s.nextKey }],
          nextKey := s.nextKey + 1 }
  | some k =>
    if s.records.any (fun r => r.id == some k) then .error ()
    else .ok { records := s.records ++ [item],
               nextKey := if s.nextKey ≤ k then k + 1 else s.nextKey }

/-- One transaction operation. `clear` empties the records but does not reset
the key generator. -/
def applyOp (s : EvState) : TxOp → Except Unit EvState
  | .clear => .ok { s with records := [] }
  | .add item => addEv s item

/-- Sequential execution of the queued requests of one transaction; the first
failing request aborts. -/
def runOps (s : EvState) : List TxOp → Except Unit EvState
  | [] => .ok s
  | op :: rest =>
    match applyOp s op with
    | .error e => .error e
    | .ok s' => runOps s' rest

/-- The request sequence `clearAndBulkAdd` queues on its one transaction
(src/index.html lines 490-516): a `clear`, then one `add` per element of
`dataArray` in array order, each with a falsy id deleted first. -/
def clearAndBulkAddOps (dataArray : List EventEvidence) : List TxOp :=
  TxOp.clear :: dataArray.map (fun item => TxOp.add (stripFalsyId item))

/-- `clearAndBulkAdd(STORES.EVIDENCES, dataArray)`: the committed result of
its single readwrite transaction, or an abort. -/
def clearAndBulkAdd (s : EvState) (dataArray : List EventEvidence) :
    Except Unit EvState :=
  runOps s (clearAndBulkAddOps dataArray)

/-- What a caller can observe after the transaction settles. IndexedDB
transactions are atomic: an abort (modelled by `aborted = true`, covering an
abort at any point of the request sequence) rolls every queued change back,
and a request failure aborts the whole transaction; only a full commit
publishes the new records. -/
def observableAfter (s : EvState) (dataArray : List EventEvidence)
    (aborted : Bool) : EvState :=
  if aborted then s
  else
    match clearAndBulkAdd s dataArray with
    | .ok s' => s'
    | .error _ => s

/-- Specification-side description of an order-preserving bulk insert: the
i-th record receives key `k + i`. -/
def assignKeys (k : Nat) : List EventEvidence → List EventEvidence
  | [] => []
  | r :: rs => { r with id := some k } :: assignKeys (k + 1) rs

/-- IndexedDB `store.put` on the USERS store (key path `id`): replace the
record holding the key, or append. -/
def putUser (users : List User) (u : User) : List User :=
  putByKey (fun x => x.id) users u

/-- IndexedDB `store.put` on the auto-increment EVIDENCES store: a record
without an id gets the next generated key appended at the tail. (The
explicit-id case of `put` never occurs in the app: `handleAttendanceSubmit`
always submits a fresh record without an id.) -/
def putEvAuto (s : EvState) (e : EventEvidence) : EvState :=
  match e.id with
  | none =>
    { records := s.records ++ [{ e with id := some s.nextKey }],
      nextKey := s.nextKey + 1 }
  | some k =>
    { records := putByKey (fun r => r.id) s.records e,
      nextKey := if s.nextKey ≤ k then k + 1 else s.nextKey }

/-- `value || 0` on the optional attendance counter (JavaScript truthiness:
an absent value and 0 both yield 0). -/
def jsOrZero (x : Option Int) : Int :=
  match x with
  | none => 0
  | some n => if n = 0 then 0 else n

/-- The two IndexedDB collections the attendance flow mutates. -/
structure AppDb where
  users : List User
  evidences : EvState
deriving Repr, DecidableEq

/-- `handleAttendanceSubmit` (src/index.html lines 877-941), restricted to
its durable effects: with no selected worker (absent, or id 0 — falsy in the
source guard) nothing is written; otherwise a fresh per-event evidence record
is `put` (auto-assigned key), and the worker found by `currentUserId` gets
its counter incremented (`(totalAssists || 0) + 1`) and its last-attendance
date set before being `put` back. The background Gist push and the UI
rendering have no effect on the stores. -/
def handleAttendanceSubmit (st : AppDb) (currentUserId : Option Nat)
    (dateValue : String) (amountValue : Int) (notesValue : String)
    (imageBase64 : Option String) (nowIso : String) : AppDb :=
  match currentUserId with
  | none => st
  | some uid =>
    if uid = 0 then st
    else
      let newEvidence : EventEvidence :=
        { id := none, userId := uid, date := dateValue, amount := amountValue,
          notes := notesValue, image := imageBase64, timestamp := nowIso }
      let evidences' := putEvAuto st.evidences newEvidence
      match st.users.find? (fun u => u.id == uid) with
      | none => { st with evidences := evidences' }
      | some u =>
        let u' := { u with totalAssists := some (jsOrZero u.totalAssists + 1),
                           lastAssistance := some dateValue }
        { users := putUser st.users u', evidences := evidences' }

/-- `INITIAL_USERS` (src/index.html lines 395-399). -/
def INITIAL_USERS : List User :=
  [{ id := 1, name := "Ana López", dni := "12345678A", totalAssists := some 5,
     lastAssistance := none },
   { id := 2, name := "Roberto Gómez", dni := "87654321B", totalAssists := some 3,
     lastAssistance := none },
   { id := 3, name := "Carla Pérez", dni := "11223344C", totalAssists := some 8,
     lastAssistance := none }]

/-- The sequential adds of `clearAndBulkAdd(STORES.USERS, arr)` after the
clear: user records keep their explicit ids (the falsy-id deletion applies
only to the EVIDENCES store), and a duplicate id fails the add, aborting the
transaction. -/
def addUsersSeq (cur : List User) : List User → Except Unit (List User)
  | [] => .ok cur
  | u :: rest =>
    if cur.any (fun x => x.id == u.id) then .error ()
    else addUsersSeq (cur ++ [u]) rest

/-- `clearAndBulkAdd(STORES.USERS, arr)`: clear, then the adds, one
transaction. -/
def clearAndBulkAddUsers (_store : List User) (arr : List User) :
    Except Unit (List User) :=
  addUsersSeq [] arr

/-- `initialDataLoad(gistId, token)` (src/index.html lines 984-1022),
restricted to its durable effects on the two collections. With both
credentials non-empty it pulls and bulk-replaces both collections; any
exception lands in the `catch`, which only re-reads the (rolled-back) local
users — note the two bulk replaces are separate transactions, so a failure
of the second leaves the first committed. Without credentials, the default
workers are seeded only when the local users collection is empty. -/
def initialDataLoad (gistId token : String)
    (results : Nat → Except JsError Response) (st : AppDb) : AppDb :=
  if gistId ≠ "" ∧ token ≠ "" then
    match loadDataFromGist gistId token results with
    | .error _ => st
    | .ok remoteData =>
      match clearAndBulkAddUsers st.users remoteData.users with
      | .error _ => st
      | .ok users' =>
        match clearAndBulkAdd st.evidences remoteData.evidences with
        | .error _ => { st with users := users' }
        | .ok evidences' => { users := users', evidences := evidences' }
  else
    if st.users.length = 0 then
      match clearAndBulkAddUsers st.users INITIAL_USERS with
      | .error _ => st
      | .ok users' => { st with users := users' }
    else st

end App

section KeyedStoreLemmas

variable {α β : Type} [BEq β] [LawfulBEq β] (idf : α → β)

theorem find?_map_put_self (r : α) :
    ∀ l : List α, l.any (fun x => idf x == idf r) = true →
      (l.map (fun x => if idf x == idf r then r else x)).find?
        (fun x => idf x == idf r) = some r := by
  intro l
  induction l with
  | nil => simp
  | cons a l ih =>
    intro h
    cases ha : (idf a == idf r) with
    | true =>
      simp only [List.map_cons, ha, if_true]
      exact List.find?_cons_of_pos _ (by simp)
    | false =>
      simp only [List.map_cons, ha, if_false]
      rw [List.find?_cons_of_neg _ (by simp [ha])]
      apply ih
      simpa [List.any_cons, ha] using h

theorem find?_append_self (r : α) :
    ∀ l : List α, l.any (fun x => idf x == idf r) = false →
      (l ++ [r]).find? (fun x => idf x == idf r) = some r := by
  intro l h
  rw [List.find?_append]
  have hl : l.find? (fun x => idf x == idf r) = none := by
    rw [List.find?_eq_none]
    intro x hx
    simp only [List.any_eq_false] at h
    simpa using h x hx
  simp [hl, List.find?_cons_of_pos]

theorem getByKey_putByKey_self (l : List α) (r : α) :
    getByKey idf (putByKey idf l r) (idf r) = some r := by
  unfold getByKey putByKey
  cases h : l.any (fun x => idf x == idf r) with
  | true => simpa [h] using find?_map_put_self idf r l h
  | false => simpa [h] using find?_append_self idf r l h

theorem find?_map_put_other (r : α) (k : β) (hk : k ≠ idf r) :
    ∀ l : List α,
      (l.map (fun x => if idf x == idf r then r else x)).find? (fun x => idf x == k)
        = l.find? (fun x => idf x == k) := by
  intro l
  induction l with
  | nil => simp
  | cons a l ih =>
    cases ha : (idf a == idf r) with
    | true =>
      have har : idf a = idf r := by simpa using ha
      have hpa : (idf a == k) = false := by
        simp [har]
        intro hcontra
        exact hk hcontra.symm
      have hpr : (idf r == k) = false := by
        simp
        intro hcontra
        exact hk hcontra.symm
      simp only [List.map_cons, ha, if_true]
      rw [List.find?_cons_of_neg _ (by simp [hpr]), List.find?_cons_of_neg _ (by simp [hpa])]
      exact ih
    | false =>
      simp only [List.map_cons, ha, if_false]
      cases hpa : (idf a == k) with
      | true =>
        rw [List.find?_cons_of_pos _ (by simp [hpa]), List.find?_cons_of_pos _ (by simp [hpa])]
        simp [ha]
      | false =>
        rw [List.find?_cons_of_neg _ (by simp [hpa]), List.find?_cons_of_neg _ (by simp [hpa])]
        exact ih

theorem getByKey_putByKey_other (l : List α) (r : α) (k : β) (hk : k ≠ idf r) :
    getByKey idf (putByKey idf l r) k = getByKey idf l k := by
  unfold getByKey putByKey
  cases h : l.any (fun x => idf x == idf r) with
  | true => simpa [h] using find?_map_put_other idf r k hk l
  | false =>
    have hr : (idf r == k) = false := by
      simp
      intro hcontra
      exact hk hcontra.symm
    simp only [h, Bool.false_eq_true, if_false]
    rw [List.find?_append]
    have : ([r].find? fun x => idf x == k) = none := by simp [hr]
    simp [this]

theorem countP_map_put (r : α) :
    ∀ l : List α,
      (l.map (fun x => if idf x == idf r then r else x)).countP (fun x => idf x == idf r)
        = l.countP (fun x => idf x == idf r) := by
  intro l
  induction l with
  | nil => simp
  | cons a l ih =>
    cases ha : (idf a == idf r) with
    | true =>
      simp only [List.map_cons, ha, if_true]
      rw [List.countP_cons, List.countP_cons, ih]
      simp [ha]
    | false =>
      simp only [List.map_cons, ha, Bool.false_eq_true, if_false]
      rw [List.countP_cons, List.countP_cons, ih]

theorem countP_putByKey_self (l : List α) (r : α)
    (hone : l.countP (fun x => idf x == idf r) ≤ 1) :
    (putByKey idf l r).countP (fun x => idf x == idf r) = 1 := by
  unfold putByKey
  cases h : l.any (fun x => idf x == idf r) with
  | true =>
    have hpos : 0 < l.countP (fun x => idf x == idf r) := by
      rw [List.countP_pos_iff]
      simpa [List.any_eq_true] using h
    simp only [h, if_true]
    rw [countP_map_put]
    omega
  | false =>
    have hzero : l.countP (fun x => idf x == idf r) = 0 := by
      rw [List.countP_eq_zero]
      intro x hx
      simp only [List.any_eq_false] at h
      exact h x hx
    simp only [h, Bool.false_eq_true, if_false]
    rw [List.countP_append, hzero]
    simp

theorem filter_map_put (r : α) :
    ∀ l : List α,
      (l.map (fun x => if idf x == idf r then r else x)).filter (fun x => !(idf x == idf r))
        = l.filter (fun x => !(idf x == idf r)) := by
  intro l
  induction l with
  | nil => simp
  | cons a l ih =>
    cases ha : (idf a == idf r) with
    | true =>
      simp only [List.map_cons, ha, if_true, List.filter_cons]
      simp only [ha, Bool.not_true, Bool.false_eq_true, if_false]
      have hr : (idf r == idf r) = true := by simp
      simp only [hr, Bool.not_true, Bool.false_eq_true, if_false]
      exact ih
    | false =>
      simp only [List.map_cons, ha, Bool.false_eq_true, if_false, List.filter_cons]
      simp only [ha, Bool.not_false, if_true]
      rw [ih]

theorem filter_putByKey_ne (l : List α) (r : α) :
    (putByKey idf l r).filter (fun x => !(idf x == idf r))
      = l.filter (fun x => !(idf x == idf r)) := by
  unfold putByKey
  cases h : l.any (fun x => idf x == idf r) with
  | true =>
    simpa [h] using filter_map_put idf r l
  | false =>
    simp only [h, Bool.false_eq_true, if_false]
    rw [List.filter_append]
    simp

end KeyedStoreLemmas

namespace EvidenceModule

theorem saveEvidenceForUser_store (store : List EvidenceRecord) (ix : List IndexEntry)
    (userId dateISO tipo dataUrl : String) (ocrResult : Option String) (now : Nat) :
    (saveEvidenceForUser store ix userId dateISO tipo dataUrl ocrResult now).store
      = idbPut store (saveEvidenceForUser store ix userId dateISO tipo dataUrl ocrResult now).record :=
  rfl

theorem saveEvidenceForUser_index (store : List EvidenceRecord) (ix : List IndexEntry)
    (userId dateISO tipo dataUrl : String) (ocrResult : Option String) (now : Nat) :
    (saveEvidenceForUser store ix userId dateISO tipo dataUrl ocrResult now).index
      = ix ++ [{ id := userId ++ "_" ++ dateISO, userId := userId, fecha := dateISO,
                 tipo := tipo, createdAt := now }] :=
  rfl

theorem saveEvidenceForUser_record_id (store : List EvidenceRecord) (ix : List IndexEntry)
    (userId dateISO tipo dataUrl : String) (ocrResult : Option String) (now : Nat) :
    (saveEvidenceForUser store ix userId dateISO tipo dataUrl ocrResult now).record.id
      = userId ++ "_" ++ dateISO := by
  unfold saveEvidenceForUser
  cases hget : idbGet store (userId ++ "_" ++ dateISO) with
  | none => split <;> simp [hget]
  | some existing =>
    have hid : existing.id = userId ++ "_" ++ dateISO := by
      have := List.find?_some hget
      simpa using this
    split <;> simp [hget, hid]

theorem saveEvidenceForUser_record_existing (store : List EvidenceRecord)
    (ix : List IndexEntry) (userId dateISO tipo dataUrl : String)
    (ocrResult : Option String) (now : Nat) (r0 : EvidenceRecord)
    (hget : idbGet store (userId ++ "_" ++ dateISO) = some r0) :
    (saveEvidenceForUser store ix userId dateISO tipo dataUrl ocrResult now).record
      = if tipo = "entrada" then
          { r0 with entrada := some dataUrl, validatedEntry := some (validationOf ocrResult) }
        else
          { r0 with salida := some dataUrl, validatedExit := some (validationOf ocrResult) } := by
  unfold saveEvidenceForUser
  simp [hget]

theorem saveEvidenceForUser_slot (store : List EvidenceRecord) (ix : List IndexEntry)
    (userId dateISO tipo dataUrl : String) (ocrResult : Option String) (now : Nat) :
    (if tipo = "entrada" then
      (saveEvidenceForUser store ix userId dateISO tipo dataUrl ocrResult now).record.entrada
     else
      (saveEvidenceForUser store ix userId dateISO tipo dataUrl ocrResult now).record.salida)
      = some dataUrl := by
  unfold saveEvidenceForUser
  cases hget : idbGet store (userId ++ "_" ++ dateISO) <;> split <;> simp [hget]

end EvidenceModule

namespace EvidenceModule

theorem idbGet_idbPut_self (store : List EvidenceRecord) (r : EvidenceRecord) :
    idbGet (idbPut store r) r.id = some r := by
  have := getByKey_putByKey_self (fun x : EvidenceRecord => x.id) store r
  simpa [idbGet, idbPut] using this

theorem idbGet_idbPut_other (store : List EvidenceRecord) (r : EvidenceRecord)
    (k : String) (hk : k ≠ r.id) :
    idbGet (idbPut store r) k = idbGet store k := by
  have := getByKey_putByKey_other (fun x : EvidenceRecord => x.id) store r k hk
  simpa [idbGet, idbPut] using this

theorem countP_idbPut_self (store : List EvidenceRecord) (r : EvidenceRecord)
    (h : store.countP (fun x => x.id == r.id) ≤ 1) :
    (idbPut store r).countP (fun x => x.id == r.id) = 1 := by
  have := countP_putByKey_self (fun x : EvidenceRecord => x.id) store r (by simpa using h)
  simpa [idbPut] using this

theorem filter_idbPut_ne (store : List EvidenceRecord) (r : EvidenceRecord) :
    (idbPut store r).filter (fun x => !(x.id == r.id))
      = store.filter (fun x => !(x.id == r.id)) := by
  have := filter_putByKey_ne (fun x : EvidenceRecord => x.id) store r
  simpa [idbPut] using this

end EvidenceModule

/-- C4: calling `saveEvidenceForUser` twice with the same
(workerId, date, eventKind) and two images leaves exactly one evidence record
for the key `workerId_date`, and the slot for that event kind holds the
second image — re-saving under the same composite identity updates in place
and never appends. The hypothesis states the store invariant that a key
occurs at most once. -/
theorem c4_idempotent_upsert (store : List EvidenceModule.EvidenceRecord)
    (ix : List EvidenceModule.IndexEntry) (userId dateISO tipo img1 img2 : String)
    (o1 o2 : Option String) (t1 t2 : Nat)
    (hone : store.countP (fun r => r.id == userId ++ "_" ++ dateISO) ≤ 1) :
    ((EvidenceModule.saveEvidenceForUser
        (EvidenceModule.saveEvidenceForUser store ix userId dateISO tipo img1 o1 t1).store
        (EvidenceModule.saveEvidenceForUser store ix userId dateISO tipo img1 o1 t1).index
        userId dateISO tipo img2 o2 t2).store.countP
      (fun r => r.id == userId ++ "_" ++ dateISO)) = 1 ∧
    EvidenceModule.idbGet
        (EvidenceModule.saveEvidenceForUser
          (EvidenceModule.saveEvidenceForUser store ix userId dateISO tipo img1 o1 t1).store
          (EvidenceModule.saveEvidenceForUser store ix userId dateISO tipo img1 o1 t1).index
          userId dateISO tipo img2 o2 t2).store (userId ++ "_" ++ dateISO)
      = some (EvidenceModule.saveEvidenceForUser
          (EvidenceModule.saveEvidenceForUser store ix userId dateISO tipo img1 o1 t1).store
          (EvidenceModule.saveEvidenceForUser store ix userId dateISO tipo img1 o1 t1).index
          userId dateISO tipo img2 o2 t2).record ∧
    (if tipo = "entrada" then
      (EvidenceModule.saveEvidenceForUser
        (EvidenceModule.saveEvidenceForUser store ix userId dateISO tipo img1 o1 t1).store
        (EvidenceModule.saveEvidenceForUser store ix userId dateISO tipo img1 o1 t1).index
        userId dateISO tipo img2 o2 t2).record.entrada
     else
      (EvidenceModule.saveEvidenceForUser
        (EvidenceModule.saveEvidenceForUser store ix userId dateISO tipo img1 o1 t1).store
        (EvidenceModule.saveEvidenceForUser store ix userId dateISO tipo img1 o1 t1).index
        userId dateISO tipo img2 o2 t2).record.salida) = some img2 := by
  set key := userId ++ "_" ++ dateISO with hkey
  set s1 := EvidenceModule.saveEvidenceForUser store ix userId dateISO tipo img1 o1 t1 with hs1
  set s2 := EvidenceModule.saveEvidenceForUser s1.store s1.index userId dateISO tipo img2 o2 t2
    with hs2
  have hid1 : s1.record.id = key :=
    EvidenceModule.saveEvidenceForUser_record_id store ix userId dateISO tipo img1 o1 t1
  have hid2 : s2.record.id = key :=
    EvidenceModule.saveEvidenceForUser_record_id s1.store s1.index userId dateISO tipo img2 o2 t2
  have hstore1 : s1.store = EvidenceModule.idbPut store s1.record :=
    EvidenceModule.saveEvidenceForUser_store store ix userId dateISO tipo img1 o1 t1
  have hstore2 : s2.store = EvidenceModule.idbPut s1.store s2.record :=
    EvidenceModule.saveEvidenceForUser_store s1.store s1.index userId dateISO tipo img2 o2 t2
  have hcount1 : s1.store.countP (fun r => r.id == key) = 1 := by
    rw [hstore1]
    have h := EvidenceModule.countP_idbPut_self store s1.record (by simp only [hid1]; exact hone)
    simp only [hid1] at h
    exact h
  refine ⟨?_, ?_, ?_⟩
  · rw [hstore2]
    have h := EvidenceModule.countP_idbPut_self s1.store s2.record
      (by simp only [hid2]; exact le_of_eq hcount1)
    simp only [hid2] at h
    exact h
  · rw [hstore2]
    have h := EvidenceModule.idbGet_idbPut_self s1.store s2.record
    rw [hid2] at h
    exact h
  · exact EvidenceModule.saveEvidenceForUser_slot s1.store s1.index userId dateISO tipo img2 o2 t2

/-- Witness for C4 at a concrete input: worker "W1", date "2024-01-10",
check-in kind, two different images. -/
theorem c4_idempotent_upsert_witness :
    (((EvidenceModule.saveEvidenceForUser
        (EvidenceModule.saveEvidenceForUser [] [] "W1" "2024-01-10" "entrada" "img1" none 10).store
        (EvidenceModule.saveEvidenceForUser [] [] "W1" "2024-01-10" "entrada" "img1" none 10).index
        "W1" "2024-01-10" "entrada" "img2" none 20).store.countP
      (fun r => r.id == "W1" ++ "_" ++ "2024-01-10")) = 1 ∧
    EvidenceModule.idbGet
        (EvidenceModule.saveEvidenceForUser
          (EvidenceModule.saveEvidenceForUser [] [] "W1" "2024-01-10" "entrada" "img1" none 10).store
          (EvidenceModule.saveEvidenceForUser [] [] "W1" "2024-01-10" "entrada" "img1" none 10).index
          "W1" "2024-01-10" "entrada" "img2" none 20).store ("W1" ++ "_" ++ "2024-01-10")
      = some (EvidenceModule.saveEvidenceForUser
          (EvidenceModule.saveEvidenceForUser [] [] "W1" "2024-01-10" "entrada" "img1" none 10).store
          (EvidenceModule.saveEvidenceForUser [] [] "W1" "2024-01-10" "entrada" "img1" none 10).index
          "W1" "2024-01-10" "entrada" "img2" none 20).record ∧
    (if "entrada" = "entrada" then
      (EvidenceModule.saveEvidenceForUser
        (EvidenceModule.saveEvidenceForUser [] [] "W1" "2024-01-10" "entrada" "img1" none 10).store
        (EvidenceModule.saveEvidenceForUser [] [] "W1" "2024-01-10" "entrada" "img1" none 10).index
        "W1" "2024-01-10" "entrada" "img2" none 20).record.entrada
     else
      (EvidenceModule.saveEvidenceForUser
        (EvidenceModule.saveEvidenceForUser [] [] "W1" "2024-01-10" "entrada" "img1" none 10).store
        (EvidenceModule.saveEvidenceForUser [] [] "W1" "2024-01-10" "entrada" "img1" none 10).index
        "W1" "2024-01-10" "entrada" "img2" none 20).record.salida) = some "img2") :=
  c4_idempotent_upsert [] [] "W1" "2024-01-10" "entrada" "img1" "img2" none none 10 20 (by decide)

/-- C9: for an existing composite evidence record, saving a check-in
("entrada") image for its (workerId, date) leaves the check-out fields
(`salida`, `validatedExit`) and the creation `timestamp` unchanged and leaves
every record under a different key unchanged; symmetrically, saving a
check-out ("salida") leaves the check-in fields (`entrada`,
`validatedEntry`) and the `timestamp` unchanged. -/
theorem c9_save_frame (store : List EvidenceModule.EvidenceRecord)
    (ix : List EvidenceModule.IndexEntry) (userId dateISO img1 img2 : String)
    (o1 o2 : Option String) (t1 t2 : Nat) (r0 : EvidenceModule.EvidenceRecord)
    (hget : EvidenceModule.idbGet store (userId ++ "_" ++ dateISO) = some r0) :
    ((EvidenceModule.saveEvidenceForUser store ix userId dateISO "entrada" img1 o1 t1).record.salida
        = r0.salida ∧
     (EvidenceModule.saveEvidenceForUser store ix userId dateISO "entrada" img1 o1 t1).record.validatedExit
        = r0.validatedExit ∧
     (EvidenceModule.saveEvidenceForUser store ix userId dateISO "entrada" img1 o1 t1).record.timestamp
        = r0.timestamp ∧
     (∀ k, k ≠ userId ++ "_" ++ dateISO →
        EvidenceModule.idbGet
          (EvidenceModule.saveEvidenceForUser store ix userId dateISO "entrada" img1 o1 t1).store k
          = EvidenceModule.idbGet store k) ∧
     (EvidenceModule.saveEvidenceForUser store ix userId dateISO "entrada" img1 o1 t1).store.filter
        (fun r => !(r.id == userId ++ "_" ++ dateISO))
        = store.filter (fun r => !(r.id == userId ++ "_" ++ dateISO))) ∧
    ((EvidenceModule.saveEvidenceForUser store ix userId dateISO "salida" img2 o2 t2).record.entrada
        = r0.entrada ∧
     (EvidenceModule.saveEvidenceForUser store ix userId dateISO "salida" img2 o2 t2).record.validatedEntry
        = r0.validatedEntry ∧
     (EvidenceModule.saveEvidenceForUser store ix userId dateISO "salida" img2 o2 t2).record.timestamp
        = r0.timestamp ∧
     (∀ k, k ≠ userId ++ "_" ++ dateISO →
        EvidenceModule.idbGet
          (EvidenceModule.saveEvidenceForUser store ix userId dateISO "salida" img2 o2 t2).store k
          = EvidenceModule.idbGet store k) ∧
     (EvidenceModule.saveEvidenceForUser store ix userId dateISO "salida" img2 o2 t2).store.filter
        (fun r => !(r.id == userId ++ "_" ++ dateISO))
        = store.filter (fun r => !(r.id == userId ++ "_" ++ dateISO))) := by
  set key := userId ++ "_" ++ dateISO with hkey
  have hrE := EvidenceModule.saveEvidenceForUser_record_existing store ix userId dateISO
    "entrada" img1 o1 t1 r0 hget
  have hrS := EvidenceModule.saveEvidenceForUser_record_existing store ix userId dateISO
    "salida" img2 o2 t2 r0 hget
  simp at hrE
  rw [if_neg (by decide)] at hrS
  have hidE : (EvidenceModule.saveEvidenceForUser store ix userId dateISO "entrada" img1 o1 t1).record.id = key :=
    EvidenceModule.saveEvidenceForUser_record_id store ix userId dateISO "entrada" img1 o1 t1
  have hidS : (EvidenceModule.saveEvidenceForUser store ix userId dateISO "salida" img2 o2 t2).record.id = key :=
    EvidenceModule.saveEvidenceForUser_record_id store ix userId dateISO "salida" img2 o2 t2
  have hstE := EvidenceModule.saveEvidenceForUser_store store ix userId dateISO "entrada" img1 o1 t1
  have hstS := EvidenceModule.saveEvidenceForUser_store store ix userId dateISO "salida" img2 o2 t2
  refine ⟨⟨?_, ?_, ?_, ?_, ?_⟩, ?_, ?_, ?_, ?_, ?_⟩
  · rw [hrE]
  · rw [hrE]
  · rw [hrE]
  · intro k hk
    rw [hstE]
    exact EvidenceModule.idbGet_idbPut_other store _ k (by rw [hidE]; exact hk)
  · rw [hstE]
    have h := EvidenceModule.filter_idbPut_ne store
      (EvidenceModule.saveEvidenceForUser store ix userId dateISO "entrada" img1 o1 t1).record
    simp only [hidE] at h
    exact h
  · rw [hrS]
  · rw [hrS]
  · rw [hrS]
  · intro k hk
    rw [hstS]
    exact EvidenceModule.idbGet_idbPut_other store _ k (by rw [hidS]; exact hk)
  · rw [hstS]
    have h := EvidenceModule.filter_idbPut_ne store
      (EvidenceModule.saveEvidenceForUser store ix userId dateISO "salida" img2 o2 t2).record
    simp only [hidS] at h
    exact h

/-- Witness for C9 at a concrete input: a stored record for W1 on 2024-01-10
with a check-out image keeps that check-out image when a check-in is saved. -/
theorem c9_save_frame_witness :
    (EvidenceModule.saveEvidenceForUser
      [{ id := "W1_2024-01-10", userId := "W1", fecha := "2024-01-10",
         entrada := none, salida := some "out.jpg", validatedEntry := none,
         validatedExit := some .yes, timestamp := 5 }]
      [] "W1" "2024-01-10" "entrada" "in.jpg" none 11).record.salida = some "out.jpg" := by
  have h := c9_save_frame
    [{ id := "W1_2024-01-10", userId := "W1", fecha := "2024-01-10",
       entrada := none, salida := some "out.jpg", validatedEntry := none,
       validatedExit := some .yes, timestamp := 5 }]
    [] "W1" "2024-01-10" "in.jpg" "x.jpg" none none 11 12
    { id := "W1_2024-01-10", userId := "W1", fecha := "2024-01-10",
      entrada := none, salida := some "out.jpg", validatedEntry := none,
      validatedExit := some .yes, timestamp := 5 }
    (by decide)
  exact h.1.1

/-- C10: every `saveEvidenceForUser` call appends exactly one entry to the
localStorage index, even when the call updates an existing record; after two
saves under the same key the index holds two entries with that id while the
durable store holds exactly one record with that id — the index length counts
save operations, not distinct records. -/
theorem c10_index_counts_saves (store : List EvidenceModule.EvidenceRecord)
    (ix : List EvidenceModule.IndexEntry) (userId dateISO tipo1 tipo2 img1 img2 : String)
    (o1 o2 : Option String) (t1 t2 : Nat)
    (hone : store.countP (fun r => r.id == userId ++ "_" ++ dateISO) ≤ 1) :
    (EvidenceModule.saveEvidenceForUser store ix userId dateISO tipo1 img1 o1 t1).index
      = ix ++ [{ id := userId ++ "_" ++ dateISO, userId := userId, fecha := dateISO,
                 tipo := tipo1, createdAt := t1 }] ∧
    (EvidenceModule.saveEvidenceForUser
        (EvidenceModule.saveEvidenceForUser store ix userId dateISO tipo1 img1 o1 t1).store
        (EvidenceModule.saveEvidenceForUser store ix userId dateISO tipo1 img1 o1 t1).index
        userId dateISO tipo2 img2 o2 t2).index
      = ix ++ [{ id := userId ++ "_" ++ dateISO, userId := userId, fecha := dateISO,
                 tipo := tipo1, createdAt := t1 },
               { id := userId ++ "_" ++ dateISO, userId := userId, fecha := dateISO,
                 tipo := tipo2, createdAt := t2 }] ∧
    (EvidenceModule.saveEvidenceForUser
        (EvidenceModule.saveEvidenceForUser store ix userId dateISO tipo1 img1 o1 t1).store
        (EvidenceModule.saveEvidenceForUser store ix userId dateISO tipo1 img1 o1 t1).index
        userId dateISO tipo2 img2 o2 t2).index.countP
        (fun e => e.id == userId ++ "_" ++ dateISO)
      = ix.countP (fun e => e.id == userId ++ "_" ++ dateISO) + 2 ∧
    (EvidenceModule.saveEvidenceForUser
        (EvidenceModule.saveEvidenceForUser store ix userId dateISO tipo1 img1 o1 t1).store
        (EvidenceModule.saveEvidenceForUser store ix userId dateISO tipo1 img1 o1 t1).index
        userId dateISO tipo2 img2 o2 t2).store.countP
        (fun r => r.id == userId ++ "_" ++ dateISO) = 1 := by
  set key := userId ++ "_" ++ dateISO with hkey
  set s1 := EvidenceModule.saveEvidenceForUser store ix userId dateISO tipo1 img1 o1 t1 with hs1
  set s2 := EvidenceModule.saveEvidenceForUser s1.store s1.index userId dateISO tipo2 img2 o2 t2
    with hs2
  have hix1 : s1.index =
      ix ++ [{ id := key, userId := userId, fecha := dateISO, tipo := tipo1, createdAt := t1 }] :=
    EvidenceModule.saveEvidenceForUser_index store ix userId dateISO tipo1 img1 o1 t1
  have hix2 : s2.index =
      s1.index ++ [{ id := key, userId := userId, fecha := dateISO, tipo := tipo2, createdAt := t2 }] :=
    EvidenceModule.saveEvidenceForUser_index s1.store s1.index userId dateISO tipo2 img2 o2 t2
  have hflat : s2.index =
      ix ++ [{ id := key, userId := userId, fecha := dateISO, tipo := tipo1, createdAt := t1 },
             { id := key, userId := userId, fecha := dateISO, tipo := tipo2, createdAt := t2 }] := by
    rw [hix2, hix1, List.append_assoc]
    rfl
  refine ⟨hix1, hflat, ?_, ?_⟩
  · rw [hflat, List.countP_append]
    simp
  · have hid1 : s1.record.id = key :=
      EvidenceModule.saveEvidenceForUser_record_id store ix userId dateISO tipo1 img1 o1 t1
    have hid2 : s2.record.id = key :=
      EvidenceModule.saveEvidenceForUser_record_id s1.store s1.index userId dateISO tipo2 img2 o2 t2
    have hstore1 : s1.store = EvidenceModule.idbPut store s1.record :=
      EvidenceModule.saveEvidenceForUser_store store ix userId dateISO tipo1 img1 o1 t1
    have hstore2 : s2.store = EvidenceModule.idbPut s1.store s2.record :=
      EvidenceModule.saveEvidenceForUser_store s1.store s1.index userId dateISO tipo2 img2 o2 t2
    have hcount1 : s1.store.countP (fun r => r.id == key) = 1 := by
      rw [hstore1]
      have h := EvidenceModule.countP_idbPut_self store s1.record (by simp only [hid1]; exact hone)
      simp only [hid1] at h
      exact h
    rw [hstore2]
    have h := EvidenceModule.countP_idbPut_self s1.store s2.record
      (by simp only [hid2]; exact le_of_eq hcount1)
    simp only [hid2] at h
    exact h

/-- Witness for C10 at a concrete input: two saves for W1 on 2024-01-10 leave
an index of length 2 (both entries with the composite id) and a store with a
single record under that id. -/
theorem c10_index_counts_saves_witness :
    (EvidenceModule.saveEvidenceForUser [] [] "W1" "2024-01-10" "entrada" "img1" none 10).index
      = [] ++ [{ id := "W1" ++ "_" ++ "2024-01-10", userId := "W1", fecha := "2024-01-10",
                 tipo := "entrada", createdAt := 10 }] ∧
    (EvidenceModule.saveEvidenceForUser
        (EvidenceModule.saveEvidenceForUser [] [] "W1" "2024-01-10" "entrada" "img1" none 10).store
        (EvidenceModule.saveEvidenceForUser [] [] "W1" "2024-01-10" "entrada" "img1" none 10).index
        "W1" "2024-01-10" "salida" "img2" none 20).index
      = [] ++ [{ id := "W1" ++ "_" ++ "2024-01-10", userId := "W1", fecha := "2024-01-10",
                 tipo := "entrada", createdAt := 10 },
               { id := "W1" ++ "_" ++ "2024-01-10", userId := "W1", fecha := "2024-01-10",
                 tipo := "salida", createdAt := 20 }] ∧
    (EvidenceModule.saveEvidenceForUser
        (EvidenceModule.saveEvidenceForUser [] [] "W1" "2024-01-10" "entrada" "img1" none 10).store
        (EvidenceModule.saveEvidenceForUser [] [] "W1" "2024-01-10" "entrada" "img1" none 10).index
        "W1" "2024-01-10" "salida" "img2" none 20).index.countP
        (fun e => e.id == "W1" ++ "_" ++ "2024-01-10")
      = ([] : List EvidenceModule.IndexEntry).countP
          (fun e => e.id == "W1" ++ "_" ++ "2024-01-10") + 2 ∧
    (EvidenceModule.saveEvidenceForUser
        (EvidenceModule.saveEvidenceForUser [] [] "W1" "2024-01-10" "entrada" "img1" none 10).store
        (EvidenceModule.saveEvidenceForUser [] [] "W1" "2024-01-10" "entrada" "img1" none 10).index
        "W1" "2024-01-10" "salida" "img2" none 20).store.countP
        (fun r => r.id == "W1" ++ "_" ++ "2024-01-10") = 1 :=
  c10_index_counts_saves [] [] "W1" "2024-01-10" "entrada" "salida" "img1" "img2"
    none none 10 20 (by decide)

namespace App

theorem getUser_putUser_self (users : List User) (u : User) :
    (putUser users u).find? (fun x => x.id == u.id) = some u := by
  have := getByKey_putByKey_self (fun x : User => x.id) users u
  simpa [putUser, getByKey] using this

end App

/-- C5: after a successful local attendance write for an existing worker
(`handleAttendanceSubmit`), the counter of the worker is incremented —
`(totalAssists || 0) + 1`, so a worker with count 5 reaches 6 — its
last-attendance date becomes the date of the event, and exactly one new
per-event evidence record attributed to that worker is appended with the next
generated key. -/
theorem c5_attendance_updates_worker (st : App.AppDb) (uid : Nat) (u : App.User)
    (dateValue : String) (amountValue : Int) (notesValue : String)
    (imageBase64 : Option String) (nowIso : String)
    (hfind : st.users.find? (fun x => x.id == uid) = some u) (huid : uid ≠ 0) :
    (App.handleAttendanceSubmit st (some uid) dateValue amountValue notesValue
        imageBase64 nowIso).users.find? (fun x => x.id == uid)
      = some { u with totalAssists := some (App.jsOrZero u.totalAssists + 1),
                      lastAssistance := some dateValue } ∧
    (App.handleAttendanceSubmit st (some uid) dateValue amountValue notesValue
        imageBase64 nowIso).evidences.records
      = st.evidences.records ++
        [{ id := some st.evidences.nextKey, userId := uid, date := dateValue,
           amount := amountValue, notes := notesValue, image := imageBase64,
           timestamp := nowIso }] ∧
    (App.handleAttendanceSubmit st (some uid) dateValue amountValue notesValue
        imageBase64 nowIso).evidences.nextKey = st.evidences.nextKey + 1 := by
  have hu : u.id = uid := by simpa using List.find?_some hfind
  subst hu
  simp only [App.handleAttendanceSubmit]
  rw [if_neg huid, hfind]
  refine ⟨?_, ?_, ?_⟩
  · exact App.getUser_putUser_self st.users
      { u with totalAssists := some (App.jsOrZero u.totalAssists + 1),
               lastAssistance := some dateValue }
  · simp [App.putEvAuto]
  · simp [App.putEvAuto]

/-- Witness for C5 at a concrete input: worker 1 with count 5 reaches count 6
and last date 2024-01-10. -/
theorem c5_attendance_updates_worker_witness :
    (App.handleAttendanceSubmit
        { users := [{ id := 1, name := "Ana", dni := "D1", totalAssists := some 5,
                      lastAssistance := none }],
          evidences := { records := [], nextKey := 1 } }
        (some 1) "2024-01-10" 45 "ok" none "2024-01-10T08:00:00.000Z").users.find?
        (fun x => x.id == 1)
      = some { id := 1, name := "Ana", dni := "D1",
               totalAssists := some (App.jsOrZero (some 5) + 1),
               lastAssistance := some "2024-01-10" } ∧
    (App.handleAttendanceSubmit
        { users := [{ id := 1, name := "Ana", dni := "D1", totalAssists := some 5,
                      lastAssistance := none }],
          evidences := { records := [], nextKey := 1 } }
        (some 1) "2024-01-10" 45 "ok" none "2024-01-10T08:00:00.000Z").evidences.records
      = [] ++ [{ id := some 1, userId := 1, date := "2024-01-10", amount := 45,
                 notes := "ok", image := none, timestamp := "2024-01-10T08:00:00.000Z" }] ∧
    (App.handleAttendanceSubmit
        { users := [{ id := 1, name := "Ana", dni := "D1", totalAssists := some 5,
                      lastAssistance := none }],
          evidences := { records := [], nextKey := 1 } }
        (some 1) "2024-01-10" 45 "ok" none "2024-01-10T08:00:00.000Z").evidences.nextKey
      = 1 + 1 :=
  c5_attendance_updates_worker
    { users := [{ id := 1, name := "Ana", dni := "D1", totalAssists := some 5,
                  lastAssistance := none }],
      evidences := { records := [], nextKey := 1 } }
    1 { id := 1, name := "Ana", dni := "D1", totalAssists := some 5, lastAssistance := none }
    "2024-01-10" 45 "ok" none "2024-01-10T08:00:00.000Z" (by decide) (by decide)

namespace App

theorem addEv_strip (s : EvState) (r : EventEvidence) (hr : jsFalsyId r.id) :
    addEv s (stripFalsyId r) =
      .ok { records := s.records ++ [{ r with id := some s.nextKey }],
            nextKey := s.nextKey + 1 } := by
  cases r with
  | mk id userId date amount notes image timestamp =>
    cases id with
    | none => simp [stripFalsyId, addEv]
    | some k =>
      rcases hr with h0 | h0
      · exact absurd h0 (by simp)
      · have hk : k = 0 := by simpa using h0
        subst hk
        simp [stripFalsyId, addEv]

theorem runOps_falsy_adds :
    ∀ (rs : List EventEvidence) (s : EvState), (∀ r ∈ rs, jsFalsyId r.id) →
      runOps s (rs.map (fun item => TxOp.add (stripFalsyId item)))
        = .ok { records := s.records ++ assignKeys s.nextKey rs,
                nextKey := s.nextKey + rs.length } := by
  intro rs
  induction rs with
  | nil =>
    intro s h
    simp [runOps, assignKeys]
  | cons r rs ih =>
    intro s h
    have hr : jsFalsyId r.id := h r (by simp)
    simp only [List.map_cons, runOps, applyOp, addEv_strip s r hr]
    rw [ih { records := s.records ++ [{ r with id := some s.nextKey }],
             nextKey := s.nextKey + 1 }
        (fun x hx => h x (by simp [hx]))]
    simp only [assignKeys, List.length_cons]
    rw [List.append_assoc]
    simp only [List.singleton_append]
    have harith : s.nextKey + 1 + rs.length = s.nextKey + (rs.length + 1) := by omega
    rw [harith]

end App

/-- C6: `clearAndBulkAdd` runs a clear plus ordered inserts inside one
readwrite transaction, so the caller observes either the old records (any
abort rolls back) or the fully committed new records — never a partial mix;
and for records whose identities are auto-assigned (falsy ids, the bulk-load
shape), the committed store holds the given sequence in order with
consecutive generated keys. -/
theorem c6_clear_and_bulk_add_atomic (s : App.EvState) (rs : List App.EventEvidence)
    (aborted : Bool) :
    (App.observableAfter s rs aborted = s ∨
     App.clearAndBulkAdd s rs = .ok (App.observableAfter s rs aborted)) ∧
    ((∀ r ∈ rs, App.jsFalsyId r.id) →
      App.clearAndBulkAdd s rs
        = .ok { records := App.assignKeys s.nextKey rs,
                nextKey := s.nextKey + rs.length }) := by
  constructor
  · unfold App.observableAfter
    cases aborted with
    | true => left; simp
    | false =>
      simp only [Bool.false_eq_true, if_false]
      cases hres : App.clearAndBulkAdd s rs with
      | error e => left; rfl
      | ok s' => right; rfl
  · intro h
    unfold App.clearAndBulkAdd App.clearAndBulkAddOps
    simp only [App.runOps, App.applyOp]
    rw [App.runOps_falsy_adds rs { records := [], nextKey := s.nextKey } h]
    simp

/-- Witness for C6 at a concrete input: two auto-id records bulk-loaded over
a one-record store with key generator at 8. -/
theorem c6_clear_and_bulk_add_atomic_witness :
    (App.observableAfter
        { records := [{ id := some 7, userId := 9, date := "2024-01-01", amount := 1,
                        notes := "old", image := none, timestamp := "t0" }], nextKey := 8 }
        [{ id := none, userId := 1, date := "2024-01-02", amount := 2, notes := "a",
           image := none, timestamp := "t1" },
         { id := some 0, userId := 2, date := "2024-01-03", amount := 3, notes := "b",
           image := none, timestamp := "t2" }] false
      = { records := [{ id := some 7, userId := 9, date := "2024-01-01", amount := 1,
                        notes := "old", image := none, timestamp := "t0" }], nextKey := 8 } ∨
     App.clearAndBulkAdd
        { records := [{ id := some 7, userId := 9, date := "2024-01-01", amount := 1,
                        notes := "old", image := none, timestamp := "t0" }], nextKey := 8 }
        [{ id := none, userId := 1, date := "2024-01-02", amount := 2, notes := "a",
           image := none, timestamp := "t1" },
         { id := some 0, userId := 2, date := "2024-01-03", amount := 3, notes := "b",
           image := none, timestamp := "t2" }]
      = .ok (App.observableAfter
          { records := [{ id := some 7, userId := 9, date := "2024-01-01", amount := 1,
                          notes := "old", image := none, timestamp := "t0" }], nextKey := 8 }
          [{ id := none, userId := 1, date := "2024-01-02", amount := 2, notes := "a",
             image := none, timestamp := "t1" },
           { id := some 0, userId := 2, date := "2024-01-03", amount := 3, notes := "b",
             image := none, timestamp := "t2" }] false)) ∧
    App.clearAndBulkAdd
        { records := [{ id := some 7, userId := 9, date := "2024-01-01", amount := 1,
                        notes := "old", image := none, timestamp := "t0" }], nextKey := 8 }
        [{ id := none, userId := 1, date := "2024-01-02", amount := 2, notes := "a",
           image := none, timestamp := "t1" },
         { id := some 0, userId := 2, date := "2024-01-03", amount := 3, notes := "b",
           image := none, timestamp := "t2" }]
      = .ok { records := App.assignKeys 8
                [{ id := none, userId := 1, date := "2024-01-02", amount := 2, notes := "a",
                   image := none, timestamp := "t1" },
                 { id := some 0, userId := 2, date := "2024-01-03", amount := 3, notes := "b",
                   image := none, timestamp := "t2" }], nextKey := 8 + 2 } :=
  ⟨(c6_clear_and_bulk_add_atomic
      { records := [{ id := some 7, userId := 9, date := "2024-01-01", amount := 1,
                      notes := "old", image := none, timestamp := "t0" }], nextKey := 8 }
      [{ id := none, userId := 1, date := "2024-01-02", amount := 2, notes := "a",
         image := none, timestamp := "t1" },
       { id := some 0, userId := 2, date := "2024-01-03", amount := 3, notes := "b",
         image := none, timestamp := "t2" }] false).1,
   (c6_clear_and_bulk_add_atomic
      { records := [{ id := some 7, userId := 9, date := "2024-01-01", amount := 1,
                      notes := "old", image := none, timestamp := "t0" }], nextKey := 8 }
      [{ id := none, userId := 1, date := "2024-01-02", amount := 2, notes := "a",
         image := none, timestamp := "t1" },
       { id := some 0, userId := 2, date := "2024-01-03", amount := 3, notes := "b",
         image := none, timestamp := "t2" }] false).2 (by decide)⟩

/-- C1 (code bug evaluation): against an endpoint that returns HTTP 404 on
every attempt, `fetchWithBackoff` makes 5 fetch attempts with backoff delays
of 1s, 2s, 4s and 8s between them before rejecting, and `loadDataFromGist`
(pull) therefore fails only after all 5 attempts — not after exactly one
attempt as the spec (and the source comment next to the 404 check)
requires: the Error thrown for the 404 is swallowed by the `catch` of the
same loop iteration on every attempt but the last. -/
theorem c1_404_is_retried_with_backoff :
    (App.fetchWithBackoff (fun _ => .ok { status := 404, files := [] }) 5).attempts = 5 ∧
    (App.fetchWithBackoff (fun _ => .ok { status := 404, files := [] }) 5).delaysMs
      = [1000, 2000, 4000, 8000] ∧
    (App.fetchWithBackoff (fun _ => .ok { status := 404, files := [] }) 5).outcome
      = .error .gist404 ∧
    App.loadDataFromGist "g" "t" (fun _ => .ok { status := 404, files := [] })
      = .error .gist404 :=
  ⟨rfl, rfl, rfl, rfl⟩

/-- C2 (code bug evaluation): against an endpoint that returns HTTP 500 on
every attempt, `fetchWithBackoff` does make exactly 5 attempts with delays of
1s, 2s, 4s, 8s and 16s — but it then resolves with `undefined` instead of
rejecting, so `saveDataToGist` (push) reports success to the caller instead
of the failure the spec requires. -/
theorem c2_500_exhaustion_reports_success :
    (App.fetchWithBackoff (fun _ => .ok { status := 500, files := [] }) 5).attempts = 5 ∧
    (App.fetchWithBackoff (fun _ => .ok { status := 500, files := [] }) 5).delaysMs
      = [1000, 2000, 4000, 8000, 16000] ∧
    (App.fetchWithBackoff (fun _ => .ok { status := 500, files := [] }) 5).outcome
      = .undef ∧
    (App.saveDataToGist "g" "t" [] [] "2024-01-01T00:00:00.000Z"
        (fun _ => .ok { status := 500, files := [] })).2 = .reportedSuccess :=
  ⟨rfl, rfl, rfl, rfl⟩

/-- C3 counterexample: with an absent Sync Configuration (empty id and
token), `loadDataFromGist` (pull) rejects with a configuration-required
Error — it is not the error-free no-op the claim states. -/
theorem c3_pull_rejects_without_config :
    App.loadDataFromGist "" ""
        (fun _ => .ok { status := 200,
                        files := [("asistencias_pro_data.json",
                                   { users := [], evidences := [] })] })
      = .error .configMissing :=
  rfl

/-- C3 amended: with an absent or incomplete Sync Configuration (empty
document id or credential), push (`saveDataToGist`) is a no-op that resolves
without error and without sending a request, while pull (`loadDataFromGist`)
rejects with a configuration-required error if invoked — the startup driver
only invokes it when both fields are non-empty. Moreover `getGistConfig`
never reads the stored configuration back: it awaits the IDBRequest instead
of its result, so its non-throwing path resolves `undefined` for every
stored state. -/
theorem c3_disabled_sync (gistId token : String) (users : List App.User)
    (evidences : List App.EventEvidence) (nowIso : String)
    (results : Nat → Except App.JsError App.Response)
    (configStore : List App.GistConfigRecord)
    (h : gistId = "" ∨ token = "") :
    App.saveDataToGist gistId token users evidences nowIso results
      = (none, .skippedNoConfig) ∧
    App.loadDataFromGist gistId token results = .error .configMissing ∧
    App.getGistConfig configStore false = none := by
  refine ⟨?_, ?_, rfl⟩
  · unfold App.saveDataToGist
    rw [if_pos h]
  · unfold App.loadDataFromGist
    rw [if_pos h]

/-- Witness for C3 at a concrete input: empty id, non-empty token, and a
CONFIG store that does hold a `gist_config` record — which still reads back
as `undefined`. -/
theorem c3_disabled_sync_witness :
    App.saveDataToGist "" "tok" [] [] "t0" (fun _ => .ok { status := 200, files := [] })
      = (none, .skippedNoConfig) ∧
    App.loadDataFromGist "" "tok" (fun _ => .ok { status := 200, files := [] })
      = .error .configMissing ∧
    App.getGistConfig
        [{ key := "gist_config", value := { gistId := "g", token := "t" } }] false = none :=
  c3_disabled_sync "" "tok" [] [] "t0" (fun _ => .ok { status := 200, files := [] })
    [{ key := "gist_config", value := { gistId := "g", token := "t" } }] (Or.inl rfl)

/-- C7 counterexample: with sync configured ("g", "t") but the pull failing
(every attempt a 404) and an empty local store, `initialDataLoad` leaves the
store empty — it does not seed the built-in default worker list, contrary to
the claim. -/
theorem c7_no_seed_on_pull_failure :
    App.initialDataLoad "g" "t" (fun _ => .ok { status := 404, files := [] })
        { users := [], evidences := { records := [], nextKey := 1 } }
      = { users := [], evidences := { records := [], nextKey := 1 } } ∧
    ([] : List App.User) ≠ App.INITIAL_USERS := by
  refine ⟨rfl, ?_⟩
  simp [App.INITIAL_USERS]

/-- C7 amended: when sync is configured but the pull fails, the driver falls
back to whatever is already in the local store, unchanged — even when that
store is empty; the built-in default worker list is seeded only on the
no-configuration path, and only when the local users collection is empty. -/
theorem c7_fallback_without_seeding (gistId token : String)
    (results : Nat → Except App.JsError App.Response) (st : App.AppDb)
    (e : App.JsError) (h1 : gistId ≠ "") (h2 : token ≠ "")
    (hfail : App.loadDataFromGist gistId token results = .error e) :
    App.initialDataLoad gistId token results st = st ∧
    (∀ (gid tok : String) (res : Nat → Except App.JsError App.Response)
        (st' : App.AppDb), (gid = "" ∨ tok = "") → st'.users = [] →
      (App.initialDataLoad gid tok res st').users = App.INITIAL_USERS) := by
  constructor
  · unfold App.initialDataLoad
    rw [if_pos ⟨h1, h2⟩, hfail]
  · intro gid tok res st' hcfg hempty
    unfold App.initialDataLoad
    rw [if_neg (by rcases hcfg with h | h <;> simp [h]), hempty]
    rfl

/-- Witness for C7 at a concrete input: configured sync, persistent 404,
a one-worker local store that is preserved; and the no-config empty-store
branch seeds the defaults. -/
theorem c7_fallback_without_seeding_witness :
    App.initialDataLoad "g" "t" (fun _ => .ok { status := 404, files := [] })
        { users := [{ id := 9, name := "Eva", dni := "D9", totalAssists := some 2,
                      lastAssistance := none }],
          evidences := { records := [], nextKey := 1 } }
      = { users := [{ id := 9, name := "Eva", dni := "D9", totalAssists := some 2,
                      lastAssistance := none }],
          evidences := { records := [], nextKey := 1 } } ∧
    (∀ (gid tok : String) (res : Nat → Except App.JsError App.Response)
        (st' : App.AppDb), (gid = "" ∨ tok = "") → st'.users = [] →
      (App.initialDataLoad gid tok res st').users = App.INITIAL_USERS) :=
  c7_fallback_without_seeding "g" "t" (fun _ => .ok { status := 404, files := [] })
    { users := [{ id := 9, name := "Eva", dni := "D9", totalAssists := some 2,
                  lastAssistance := none }],
      evidences := { records := [], nextKey := 1 } }
    .gist404 (by decide) (by decide) rfl

namespace App

theorem userJson_injective (u v : User) (h : userJson u = userJson v) : u = v := by
  obtain ⟨uid, uname, udni, uta, ula⟩ := u
  obtain ⟨vid, vname, vdni, vta, vla⟩ := v
  cases uta <;> cases vta <;> cases ula <;> cases vla <;>
    simp_all [userJson, optStrJson]

theorem eventEvidenceJson_injective (a b : EventEvidence)
    (h : eventEvidenceJson a = eventEvidenceJson b) : a = b := by
  obtain ⟨aid, auid, adate, aam, anotes, aimg, ats⟩ := a
  obtain ⟨bid, buid, bdate, bam, bnotes, bimg, bts⟩ := b
  cases aid <;> cases bid <;> cases aimg <;> cases bimg <;>
    simp_all [eventEvidenceJson, optStrJson]

end App

namespace EvidenceModule

theorem syncToGist_request (cfgId cfgToken : String) (users : List JVal)
    (evidences : List EvidenceRecord) (nowIso : String)
    (fetchStatus : Except Unit Nat) (h : ¬(cfgId = "" ∨ cfgToken = "")) :
    (syncToGist cfgId cfgToken users evidences nowIso fetchStatus).1
      = some { method := "PATCH",
               url := "https://api.github.com/gists/" ++ cfgId,
               description := "Backup Asistencias PRO - " ++ nowIso,
               files := [(GIST_FILE_NAME,
                 JVal.obj [("users", .arr users),
                           ("evidences", .arr (evidences.map evidenceRecordJson))])] } := by
  unfold syncToGist
  rw [if_neg h]
  cases fetchStatus with
  | error e => rfl
  | ok status =>
    dsimp only
    split <;> rfl

end EvidenceModule

/-- C8 counterexample: the object `saveDataToGist` serializes into the remote
file is not "the two collections and nothing else": it also carries a
`lastSync` field, so it differs from the spec-modelled payload even on empty
collections. -/
theorem c8_payload_not_only_two_collections :
    App.dataToSaveJson [] [] "2024-01-01T00:00:00.000Z"
      ≠ App.specPushContentJson [] [] := by
  intro h
  simp [App.dataToSaveJson, App.specPushContentJson] at h

/-- C8 amended: every push submits one PATCH request that whole-file-replaces
a single named file with the serialized snapshot of the local collections;
`saveDataToGist` serializes exactly the fields `users`, `evidences` and
`lastSync` (the two `getAll` snapshots plus a sync timestamp — not "nothing
else"), with the record serialization faithful (injective); the first
first-variant `syncToGist` file content holds exactly `users` and `evidences`. -/
theorem c8_push_request_shape (gistId token : String) (users : List App.User)
    (evs : List App.EventEvidence) (nowIso : String)
    (results : Nat → Except App.JsError App.Response)
    (cfgId cfgToken : String) (v1users : List JVal)
    (v1evs : List EvidenceModule.EvidenceRecord) (v1now : String)
    (fetchStatus : Except Unit Nat)
    (h1 : gistId ≠ "") (h2 : token ≠ "") (h3 : cfgId ≠ "") (h4 : cfgToken ≠ "") :
    (App.saveDataToGist gistId token users evs nowIso results).1
      = some (App.saveDataRequest gistId users evs nowIso) ∧
    (App.saveDataRequest gistId users evs nowIso).method = "PATCH" ∧
    (App.saveDataRequest gistId users evs nowIso).files
      = [("asistencias_pro_data.json", App.dataToSaveJson users evs nowIso)] ∧
    jvalKeys (App.dataToSaveJson users evs nowIso) = ["users", "evidences", "lastSync"] ∧
    jvalLookup (App.dataToSaveJson users evs nowIso) "users"
      = some (.arr (users.map App.userJson)) ∧
    jvalLookup (App.dataToSaveJson users evs nowIso) "evidences"
      = some (.arr (evs.map App.eventEvidenceJson)) ∧
    (∀ u v : App.User, App.userJson u = App.userJson v → u = v) ∧
    (∀ a b : App.EventEvidence,
      App.eventEvidenceJson a = App.eventEvidenceJson b → a = b) ∧
    (EvidenceModule.syncToGist cfgId cfgToken v1users v1evs v1now fetchStatus).1
      = some { method := "PATCH",
               url := "https://api.github.com/gists/" ++ cfgId,
               description := "Backup Asistencias PRO - " ++ v1now,
               files := [(EvidenceModule.GIST_FILE_NAME,
                 JVal.obj [("users", .arr v1users),
                           ("evidences",
                            .arr (v1evs.map EvidenceModule.evidenceRecordJson))])] } ∧
    jvalKeys (JVal.obj [("users", .arr v1users),
                        ("evidences",
                         .arr (v1evs.map EvidenceModule.evidenceRecordJson))])
      = ["users", "evidences"] := by
  refine ⟨?_, rfl, rfl, rfl, rfl, rfl, App.userJson_injective, App.eventEvidenceJson_injective,
    EvidenceModule.syncToGist_request cfgId cfgToken v1users v1evs v1now fetchStatus
      (by rintro (h | h) <;> [exact h3 h; exact h4 h]), rfl⟩
  unfold App.saveDataToGist
  rw [if_neg (by rintro (h | h) <;> [exact h1 h; exact h2 h])]
  cases (App.fetchWithBackoff results 5).outcome <;> rfl

/-- Witness for C8 at a concrete input: one worker record, empty evidence
lists, configured ids on both variants. -/
theorem c8_push_request_shape_witness :
    (App.saveDataToGist "g" "t"
        [{ id := 1, name := "Ana", dni := "D1", totalAssists := some 5,
           lastAssistance := none }] [] "t0"
        (fun _ => .ok { status := 200, files := [] })).1
      = some (App.saveDataRequest "g"
          [{ id := 1, name := "Ana", dni := "D1", totalAssists := some 5,
             lastAssistance := none }] [] "t0") ∧
    (App.saveDataRequest "g"
        [{ id := 1, name := "Ana", dni := "D1", totalAssists := some 5,
           lastAssistance := none }] [] "t0").method = "PATCH" ∧
    (App.saveDataRequest "g"
        [{ id := 1, name := "Ana", dni := "D1", totalAssists := some 5,
           lastAssistance := none }] [] "t0").files
      = [("asistencias_pro_data.json",
          App.dataToSaveJson
            [{ id := 1, name := "Ana", dni := "D1", totalAssists := some 5,
               lastAssistance := none }] [] "t0")] ∧
    jvalKeys (App.dataToSaveJson
        [{ id := 1, name := "Ana", dni := "D1", totalAssists := some 5,
           lastAssistance := none }] [] "t0")
      = ["users", "evidences", "lastSync"] ∧
    jvalLookup (App.dataToSaveJson
        [{ id := 1, name := "Ana", dni := "D1", totalAssists := some 5,
           lastAssistance := none }] [] "t0") "users"
      = some (.arr ([{ id := 1, name := "Ana", dni := "D1", totalAssists := some 5,
                       lastAssistance := none }].map App.userJson)) ∧
    jvalLookup (App.dataToSaveJson
        [{ id := 1, name := "Ana", dni := "D1", totalAssists := some 5,
           lastAssistance := none }] [] "t0") "evidences"
      = some (.arr (([] : List App.EventEvidence).map App.eventEvidenceJson)) ∧
    (∀ u v : App.User, App.userJson u = App.userJson v → u = v) ∧
    (∀ a b : App.EventEvidence,
      App.eventEvidenceJson a = App.eventEvidenceJson b → a = b) ∧
    (EvidenceModule.syncToGist "c" "k" [] [] "t1" (.ok 200)).1
      = some { method := "PATCH",
               url := "https://api.github.com/gists/" ++ "c",
               description := "Backup Asistencias PRO - " ++ "t1",
               files := [(EvidenceModule.GIST_FILE_NAME,
                 JVal.obj [("users", .arr []),
                           ("evidences",
                            .arr (([] : List EvidenceModule.EvidenceRecord).map
                              EvidenceModule.evidenceRecordJson))])] } ∧
    jvalKeys (JVal.obj [("users", .arr ([] : List JVal)),
                        ("evidences",
                         .arr (([] : List EvidenceModule.EvidenceRecord).map
                           EvidenceModule.evidenceRecordJson))])
      = ["users", "evidences"] :=
  c8_push_request_shape "g" "t"
    [{ id := 1, name := "Ana", dni := "D1", totalAssists := some 5,
       lastAssistance := none }] [] "t0"
    (fun _ => .ok { status := 200, files := [] })
    "c" "k" [] [] "t1" (.ok 200)
    (by decide) (by decide) (by decide) (by decide)
